import Mathlib

/-!
Formal model of the OpenGL shadow-mapping scene renderer in
`src/proiect_PG_v1/proiect_PG_v1/main.cpp`.

The program's `float`/`double` scalars are idealized as real numbers, GLM
vectors and matrices as `Vec3`/`Vec4`/`Matrix (Fin 4) (Fin 4) ℝ`.  GPU calls
(`glUniform*`, `glViewport`, `glBindFramebuffer`, draw calls, ...) are modelled
as an explicit trace of effects, and the render functions as pure functions
from the program's global state to a new state paired with that trace.
Purely event-driven integer/rational state (pressed keys, display modes, the
mouse-look state, the light angle) is modelled computably over `ℤ`/`ℚ`.
-/

/-! ## GLM vectors and matrices -/

/-- Real 3-component vector, the model of `glm::vec3`. -/
@[ext]
structure Vec3 where
  x : ℝ
  y : ℝ
  z : ℝ

/-- Real 4-component vector, the model of `glm::vec4`. -/
@[ext]
structure Vec4 where
  x : ℝ
  y : ℝ
  z : ℝ
  w : ℝ

/-- Model of `glm::mat4` as a mathematical 4×4 real matrix (glm stores
column-major, but `m * v` below agrees with glm's `m * v`). -/
abbrev Mat4 := Matrix (Fin 4) (Fin 4) ℝ

/-- Model of `glm::mat3`. -/
abbrev Mat3 := Matrix (Fin 3) (Fin 3) ℝ

namespace Vec3

/-- Componentwise difference, `a - b`. -/
def sub (a b : Vec3) : Vec3 := ⟨a.x - b.x, a.y - b.y, a.z - b.z⟩

/-- Scalar multiple `c * v`. -/
def smul (c : ℝ) (v : Vec3) : Vec3 := ⟨c * v.x, c * v.y, c * v.z⟩

/-- Negation `-v`. -/
def neg (v : Vec3) : Vec3 := ⟨-v.x, -v.y, -v.z⟩

/-- Model of `glm::dot`. -/
def dot (a b : Vec3) : ℝ := a.x * b.x + a.y * b.y + a.z * b.z

/-- Model of `glm::cross`. -/
def cross (a b : Vec3) : Vec3 :=
  ⟨a.y * b.z - a.z * b.y, a.z * b.x - a.x * b.z, a.x * b.y - a.y * b.x⟩

/-- Euclidean length, model of `glm::length`. -/
noncomputable def len (v : Vec3) : ℝ := Real.sqrt (dot v v)

/-- Model of `glm::normalize` (`v * inversesqrt(dot(v, v))`). -/
noncomputable def normalize (v : Vec3) : Vec3 := smul (1 / len v) v

end Vec3

/-- Drops the fourth component, the model of the `glm::vec3(v4)` conversion. -/
def Vec4.xyz (v : Vec4) : Vec3 := ⟨v.x, v.y, v.z⟩

/-- Matrix–vector product `m * v` for a `glm::mat4` and a `glm::vec4`. -/
def mulVec4 (m : Mat4) (v : Vec4) : Vec4 :=
  ⟨m 0 0 * v.x + m 0 1 * v.y + m 0 2 * v.z + m 0 3 * v.w,
   m 1 0 * v.x + m 1 1 * v.y + m 1 2 * v.z + m 1 3 * v.w,
   m 2 0 * v.x + m 2 1 * v.y + m 2 2 * v.z + m 2 3 * v.w,
   m 3 0 * v.x + m 3 1 * v.y + m 3 2 * v.z + m 3 3 * v.w⟩

/-- Model of `glm::radians`: degrees to radians. -/
noncomputable def radians (deg : ℝ) : ℝ := deg * (Real.pi / 180)

/-- Model of `glm::rotate(glm::mat4(1.0f), θ, glm::vec3(0,1,0))`: the general
glm axis–angle rotation specialized to the unit axis `(0,1,0)`, the only axis
used anywhere in `main.cpp` (teapot/nanosuit rotation and light rotation). -/
noncomputable def glmRotateY (θ : ℝ) : Mat4 :=
  !![Real.cos θ, 0, Real.sin θ, 0;
     0, 1, 0, 0;
     -Real.sin θ, 0, Real.cos θ, 0;
     0, 0, 0, 1]

/-- Homogeneous translation matrix with translation column `v`. -/
def translationMat (v : Vec3) : Mat4 :=
  !![1, 0, 0, v.x;
     0, 1, 0, v.y;
     0, 0, 1, v.z;
     0, 0, 0, 1]

/-- Homogeneous scaling matrix with diagonal `v`. -/
def scalingMat (v : Vec3) : Mat4 :=
  !![v.x, 0, 0, 0;
     0, v.y, 0, 0;
     0, 0, v.z, 0;
     0, 0, 0, 1]

/-- Model of `glm::translate(m, v) = m * T(v)`. -/
noncomputable def glmTranslate (m : Mat4) (v : Vec3) : Mat4 := m * translationMat v

/-- Model of `glm::scale(m, v) = m * S(v)`. -/
noncomputable def glmScale (m : Mat4) (v : Vec3) : Mat4 := m * scalingMat v

/-- Model of right-handed `glm::lookAt(eye, center, up)`. -/
noncomputable def glmLookAt (eye center up : Vec3) : Mat4 :=
  let f := Vec3.normalize (Vec3.sub center eye)
  let s := Vec3.normalize (Vec3.cross f up)
  let u := Vec3.cross s f
  !![s.x, s.y, s.z, -(Vec3.dot s eye);
     u.x, u.y, u.z, -(Vec3.dot u eye);
     -f.x, -f.y, -f.z, Vec3.dot f eye;
     0, 0, 0, 1]

/-- Model of `glm::ortho(l, r, b, t, n, f)` (default GL clip depth `[-1,1]`). -/
noncomputable def glmOrtho (l r b t n f : ℝ) : Mat4 :=
  !![2 / (r - l), 0, 0, -((r + l) / (r - l));
     0, 2 / (t - b), 0, -((t + b) / (t - b));
     0, 0, -2 / (f - n), -((f + n) / (f - n));
     0, 0, 0, 1]

/-- Upper-left 3×3 block, the model of the `glm::mat3(m4)` conversion. -/
def mat3ofMat4 (m : Mat4) : Mat3 :=
  Matrix.of fun i j => m (Fin.castSucc i) (Fin.castSucc j)

/-- Model of `glm::inverseTranspose` on `mat4`. -/
noncomputable def inverseTranspose (m : Mat4) : Mat4 := m⁻¹.transpose

/-! ## The light-space transform (`computeLightSpaceTrMatrix`, main.cpp 489–509)

The rotated, un-normalized light direction `lightRotation * vec4(0,1,1,0)` is
computed by the identical expression at two places in the source: inside
`computeLightSpaceTrMatrix` (lines 493–494) and inside `renderScene`
(lines 594–595).  It is factored out here as `rotatedLightDir`. -/

/-- Value of the local `rotatedLightDir` for light angle `θ` (degrees):
`glm::vec3(lightRotation * glm::vec4(0.0f, 1.0f, 1.0f, 0.0f))`. -/
noncomputable def rotatedLightDir (θ : ℝ) : Vec3 :=
  (mulVec4 (glmRotateY (radians θ)) ⟨0, 1, 1, 0⟩).xyz

/-- Value of the local `lightDirN = glm::normalize(rotatedLightDir)`. -/
noncomputable def lightDirN (θ : ℝ) : Vec3 := Vec3.normalize (rotatedLightDir θ)

/-- Value of the local `lightPos = lightDirN * 10.0f`: the virtual light-camera
position used by `computeLightSpaceTrMatrix`. -/
noncomputable def lightPos (θ : ℝ) : Vec3 := Vec3.smul 10 (lightDirN θ)

/-- Model of `computeLightSpaceTrMatrix()` as a function of the global
`lightAngle`. -/
noncomputable def computeLightSpaceTrMatrix (lightAngle : ℝ) : Mat4 :=
  let lightView := glmLookAt (lightPos lightAngle) ⟨0, 0, 0⟩ ⟨0, 1, 0⟩
  let lightProjection := glmOrtho (-10) 10 (-10) 10 1 50
  lightProjection * lightView

/-- Model matrix of the light-marker cube (main.cpp 609–611):
`model = lightRotation; model = translate(model, vec3(0,1,1) * 10.0f);`
`model = scale(model, vec3(0.5f))`. -/
noncomputable def lightCubeModel (θ : ℝ) : Mat4 :=
  glmScale (glmTranslate (glmRotateY (radians θ)) ⟨0, 10, 10⟩) ⟨1/2, 1/2, 1/2⟩

/-- Translation column of a homogeneous transform. -/
def translationOf (m : Mat4) : Vec3 := ⟨m 0 3, m 1 3, m 2 3⟩

/-- Model matrix of the nanosuit (main.cpp 516):
`glm::rotate(glm::mat4(1.0f), glm::radians(angle), glm::vec3(0,1,0))`. -/
noncomputable def nanosuitModel (angle : ℝ) : Mat4 := glmRotateY (radians angle)

/-- Model matrix of the ground (main.cpp 528–529):
`model = translate(mat4(1), vec3(0,-1,0)); model = scale(model, vec3(0.5f))`. -/
noncomputable def groundModel : Mat4 :=
  glmScale (glmTranslate 1 ⟨0, -1, 0⟩) ⟨1/2, 1/2, 1/2⟩

/-! ## Effect-trace model of the render functions

`drawObjects` (main.cpp 512–538) and `renderScene` (main.cpp 540–617) are
modelled as pure functions from the program's global variables to an updated
set of globals together with the ordered list of GL effects (shader
activations, uniform uploads, viewport/framebuffer changes, draw calls) the
call issues. -/

/-- The four shader programs of main.cpp. -/
inductive ShaderId where
  | basic
  | depthMap
  | light
  | skybox
deriving DecidableEq

/-- The uniform names used by main.cpp (a fixed, documented contract). -/
inductive Uniform where
  | model
  | view
  | projection
  | normalMatrix
  | lightDir
  | lightColor
  | lightSpaceTrMatrix
  | shadowMap
  | isFlat
  | initAlpha
deriving DecidableEq

/-- The drawable meshes used by `renderScene`. -/
inductive ModelId where
  | nanosuit
  | ground
  | lightCube
deriving DecidableEq

/-- One GL-level effect issued by the render code. -/
inductive Effect where
  | useProgram (sh : ShaderId)
  | uploadMat4 (sh : ShaderId) (u : Uniform) (m : Mat4)
  | uploadMat3 (sh : ShaderId) (u : Uniform) (m : Mat3)
  | uploadVec3 (sh : ShaderId) (u : Uniform) (v : Vec3)
  | uploadInt (sh : ShaderId) (u : Uniform) (n : ℤ)
  | setViewport (x y w h : ℕ)
  | bindFramebuffer (fbo : ℕ)
  | clearBuffers (color depth : Bool)
  | activeTexture (unit : ℕ)
  | bindTexture (tex : ℕ)
  | draw (m : ModelId) (sh : ShaderId)
  | drawSkybox (sh : ShaderId) (view projection : Mat4)

/-- The uniform a trace entry uploads to, if it is an upload. -/
def uploadName : Effect → Option Uniform
  | Effect.uploadMat4 _ u _ => some u
  | Effect.uploadMat3 _ u _ => some u
  | Effect.uploadVec3 _ u _ => some u
  | Effect.uploadInt _ u _ => some u
  | _ => none

/-- All uploads to uniform `u` in a trace, in order. -/
def uploadsNamed (tr : List Effect) (u : Uniform) : List Effect :=
  tr.filter fun e => decide (uploadName e = some u)

/-- The global variables of main.cpp read or written by `renderScene`, plus
the per-frame inputs that come from external collaborators (the camera's view
matrix and the window's current dimensions). -/
structure RenderGlobals where
  model : Mat4
  view : Mat4
  projection : Mat4
  normalMatrix : Mat3
  angle : ℝ
  lightAngle : ℝ
  isFlat : ℤ
  winWidth : ℕ
  winHeight : ℕ
  shadowMapFBO : ℕ
  depthMapTexture : ℕ
  cameraView : Mat4

/-- Model of `drawObjects(shader, depthPass)` (main.cpp 512–538): draws the
nanosuit and the ground, uploading each object's model matrix, and — only when
`depthPass` is false — recomputing and uploading the normal matrix
`mat3(inverseTranspose(view * model))` for each object. -/
noncomputable def drawObjects (shader : ShaderId) (depthPass : Bool)
    (g : RenderGlobals) : RenderGlobals × List Effect :=
  let m1 := nanosuitModel g.angle
  let nm1 := if depthPass then g.normalMatrix
             else mat3ofMat4 (inverseTranspose (g.view * m1))
  let e1 : List Effect :=
    [Effect.useProgram shader, Effect.uploadMat4 shader Uniform.model m1] ++
    (if depthPass then [] else [Effect.uploadMat3 shader Uniform.normalMatrix nm1]) ++
    [Effect.draw ModelId.nanosuit shader]
  let m2 := groundModel
  let nm2 := if depthPass then nm1
             else mat3ofMat4 (inverseTranspose (g.view * m2))
  let e2 : List Effect :=
    [Effect.uploadMat4 shader Uniform.model m2] ++
    (if depthPass then [] else [Effect.uploadMat3 shader Uniform.normalMatrix nm2]) ++
    [Effect.draw ModelId.ground shader]
  ({ g with model := m2, normalMatrix := nm2 }, e1 ++ e2)

/-- Model of `renderScene()` (main.cpp 540–617): the depth pass into the
shadow FBO, the color pass, the light-marker cube, and the sky-box, in source
order. -/
noncomputable def renderScene (g : RenderGlobals) : RenderGlobals × List Effect :=
  let lsm := computeLightSpaceTrMatrix g.lightAngle
  let eDepth : List Effect :=
    [Effect.useProgram ShaderId.depthMap,
     Effect.uploadMat4 ShaderId.depthMap Uniform.lightSpaceTrMatrix lsm,
     Effect.setViewport 0 0 2048 2048,
     Effect.bindFramebuffer g.shadowMapFBO,
     Effect.clearBuffers false true]
  let p1 := drawObjects ShaderId.depthMap true g
  let viewNew := g.cameraView
  let eColor : List Effect :=
    [Effect.bindFramebuffer 0,
     Effect.setViewport 0 0 g.winWidth g.winHeight,
     Effect.clearBuffers true true,
     Effect.useProgram ShaderId.basic,
     Effect.uploadInt ShaderId.basic Uniform.isFlat g.isFlat,
     Effect.uploadInt ShaderId.basic Uniform.initAlpha 0,
     Effect.uploadMat4 ShaderId.basic Uniform.view viewNew,
     Effect.uploadMat4 ShaderId.basic Uniform.lightSpaceTrMatrix lsm,
     Effect.activeTexture 2,
     Effect.bindTexture g.depthMapTexture,
     Effect.uploadInt ShaderId.basic Uniform.shadowMap 2,
     Effect.uploadVec3 ShaderId.basic Uniform.lightDir (rotatedLightDir g.lightAngle)]
  let p2 := drawObjects ShaderId.basic false { p1.1 with view := viewNew }
  let mLC := lightCubeModel g.lightAngle
  let eCube : List Effect :=
    [Effect.useProgram ShaderId.light,
     Effect.uploadMat4 ShaderId.light Uniform.view viewNew,
     Effect.uploadMat4 ShaderId.light Uniform.projection g.projection,
     Effect.uploadMat4 ShaderId.light Uniform.model mLC,
     Effect.draw ModelId.lightCube ShaderId.light,
     Effect.drawSkybox ShaderId.skybox viewNew g.projection]
  ({ p2.1 with model := mLC }, eDepth ++ p1.2 ++ eColor ++ p2.2 ++ eCube)

/-- The GL server state tracked by this model. -/
structure GLState where
  viewport : ℕ × ℕ × ℕ × ℕ
  boundFramebuffer : ℕ

/-- How one effect changes the tracked GL state. -/
def applyEffect (s : GLState) : Effect → GLState
  | Effect.setViewport x y w h => { s with viewport := (x, y, w, h) }
  | Effect.bindFramebuffer fbo => { s with boundFramebuffer := fbo }
  | _ => s

/-- Replay of a whole trace on the GL state. -/
def applyEffects (s : GLState) (tr : List Effect) : GLState :=
  tr.foldl applyEffect s

/-! ## Mouse-look state machine (`mouseCallback`, main.cpp 164–200)

Cursor positions and the yaw/pitch globals are modelled over `ℚ` (exact
arithmetic in place of `float`/`double`).  Each processed movement emits the
`(pitch, yaw)` pair passed to `myCamera.rotate`. -/

/-- The globals read and written by `mouseCallback`. -/
structure MouseState where
  firstMouse : Bool
  lastX : ℚ
  lastY : ℚ
  yaw : ℚ
  pitch : ℚ

/-- Initial values of the mouse globals (main.cpp 28–32). -/
def initMouseState : MouseState := ⟨true, 512, 384, -90, 0⟩

/-- One cursor-position event: the new cursor coordinates, and whether the
cursor is currently in `GLFW_CURSOR_NORMAL` mode (in which case the callback
returns immediately). -/
structure MouseEvent where
  xpos : ℚ
  ypos : ℚ
  cursorNormal : Bool

/-- Model of one `mouseCallback` invocation.  Returns the updated globals and
`some (pitch, yaw)` when `myCamera.rotate(pitch, yaw)` is called. -/
def mouseStep (s : MouseState) (e : MouseEvent) : MouseState × Option (ℚ × ℚ) :=
  if e.cursorNormal then (s, none)
  else
    let lx := if s.firstMouse then e.xpos else s.lastX
    let ly := if s.firstMouse then e.ypos else s.lastY
    let xoffset := (e.xpos - lx) * (1 / 10)
    let yoffset := (ly - e.ypos) * (1 / 10)
    let yaw1 := s.yaw + xoffset
    let pitch0 := s.pitch + yoffset
    let pitch1 := if pitch0 > 89 then 89 else pitch0
    let pitch2 := if pitch1 < -89 then -89 else pitch1
    (⟨false, e.xpos, e.ypos, yaw1, pitch2⟩, some (pitch2, yaw1))

/-- Folds a whole event sequence, collecting every `(pitch, yaw)` pair passed
to `myCamera.rotate`. -/
def mouseRun : MouseState → List MouseEvent → MouseState × List (ℚ × ℚ)
  | s, [] => (s, [])
  | s, e :: es =>
    let p := mouseStep s e
    let r := mouseRun p.1 es
    (r.1, p.2.toList ++ r.2)

/-! ## Display-mode state machine (`processInput`, main.cpp 279–302) -/

/-- The argument the code passes to `glPolygonMode(GL_FRONT_AND_BACK, ·)`. -/
inductive FillMode where
  | fill
  | line
  | point
deriving DecidableEq

/-- The pair (rasterizer polygon mode, `isFlat` shading flag).  The GL default
polygon mode is `GL_FILL` and main.cpp initializes `isFlat = 0`. -/
structure DisplayMode where
  fillMode : FillMode
  isFlat : ℤ
deriving DecidableEq

/-- Initial display mode: filled polygons, smooth shading. -/
def initDisplayMode : DisplayMode := ⟨FillMode.fill, 0⟩

/-- The display-mode selection keys 1–4. -/
inductive ModeKey where
  | k1
  | k2
  | k3
  | k4
deriving DecidableEq

/-- Effect of one display-mode key on the state (main.cpp 281–302): each
branch sets both the polygon mode and `isFlat` unconditionally. -/
def modeStep (_s : DisplayMode) : ModeKey → DisplayMode
  | ModeKey.k1 => ⟨FillMode.fill, 0⟩
  | ModeKey.k2 => ⟨FillMode.line, 0⟩
  | ModeKey.k3 => ⟨FillMode.point, 0⟩
  | ModeKey.k4 => ⟨FillMode.fill, 1⟩

/-- State after a sequence of display-mode key events from the default. -/
def modeRun (evs : List ModeKey) : DisplayMode :=
  evs.foldl modeStep initDisplayMode

/-! ## Light-angle events (`processInput`, main.cpp 304–310) -/

/-- The two light-rotation keys: `J` decrements `lightAngle` by 1 degree,
`L` increments it by 1 degree. -/
inductive LightKey where
  | keyJ
  | keyL
deriving DecidableEq

/-- Effect of one light key on `lightAngle` (modelled over `ℚ`). -/
def lightStep (a : ℚ) : LightKey → ℚ
  | LightKey.keyJ => a - 1
  | LightKey.keyL => a + 1

/-- The light angle after a sequence of `J`/`L` events. -/
def lightRun (evs : List LightKey) (a : ℚ) : ℚ :=
  evs.foldl lightStep a

/-! ## Keyboard callback (`keyboardCallback`, main.cpp 136–162) -/

/-- GLFW key actions. -/
inductive KeyAction where
  | press
  | release
  | rep
deriving DecidableEq

/-- Model of the `pressedKeys[1024]` array. -/
def KeyArray := Fin 1024 → Bool

/-- Model of `keyboardCallback`: the `pressedKeys` array afterwards, whether
the callback requests window close (`Escape` pressed), and whether it toggles
the cursor mode (`M` pressed; `GLFW_KEY_ESCAPE = 256`, `GLFW_KEY_M = 77`).
The array is touched only when `0 <= key && key < 1024`. -/
def keyboardCallback (key : ℤ) (action : KeyAction) (pressed : KeyArray) :
    KeyArray × Bool × Bool :=
  let close := key = 256 ∧ action = KeyAction.press
  let toggleCursor := key = 77 ∧ action = KeyAction.press
  let pressed' : KeyArray :=
    if h : 0 ≤ key ∧ key < 1024 then
      match action with
      | KeyAction.press => Function.update pressed ⟨key.toNat, by omega⟩ true
      | KeyAction.release => Function.update pressed ⟨key.toNat, by omega⟩ false
      | KeyAction.rep => pressed
    else pressed
  (pressed', decide close, decide toggleCursor)

/-! ## `main` (main.cpp 624–656) -/

/-- The top-level actions `main` performs, in order. -/
inductive MainAct where
  | reportError
  | doInitOpenGLState
  | doInitFBO
  | doInitModels
  | doInitShaders
  | doInitUniforms
  | doInitSkyBox
  | doSetCallbacks
  | frame
  | doCleanup
deriving DecidableEq

/-- Model of `EXIT_FAILURE`. -/
def EXIT_FAILURE : ℤ := 1

/-- Model of `EXIT_SUCCESS`. -/
def EXIT_SUCCESS : ℤ := 0

/-- Model of `main`: if `initOpenGLWindow()` throws, the handler prints the
message to `std::cerr` and returns `EXIT_FAILURE`; otherwise the
initialization sequence runs, the render loop executes `frames` iterations
until the close flag is observed, `cleanup()` runs, and `EXIT_SUCCESS` is
returned. -/
def mainRun (initThrows : Bool) (frames : ℕ) : ℤ × List MainAct :=
  if initThrows then (EXIT_FAILURE, [MainAct.reportError])
  else
    (EXIT_SUCCESS,
     [MainAct.doInitOpenGLState, MainAct.doInitFBO, MainAct.doInitModels,
      MainAct.doInitShaders, MainAct.doInitUniforms, MainAct.doInitSkyBox,
      MainAct.doSetCallbacks] ++
     List.replicate frames MainAct.frame ++ [MainAct.doCleanup])

/-- A concrete frame state: identity matrices, all angles `0`, smooth shading,
the 1024×768 startup window, FBO/texture ids `1`. -/
noncomputable def frame0 : RenderGlobals := ⟨1, 1, 1, 1, 0, 0, 0, 1024, 768, 1, 1, 1⟩

/-! ## Helper lemmas -/

/-- At light angle `0` the rotation is the identity, so the rotated base
direction is `(0, 1, 1)` itself. -/
theorem rotatedLightDir_zero : rotatedLightDir 0 = ⟨0, 1, 1⟩ := by
  simp [rotatedLightDir, glmRotateY, radians, mulVec4, Vec4.xyz,
        Matrix.cons_val_zero, Matrix.cons_val_one, Matrix.head_cons,
        Matrix.cons_val_two, Matrix.cons_val_three, Matrix.tail_cons]

/-- Every `(pitch, yaw)` pair `mouseStep` emits has its pitch clamped to
`[-89, 89]`. -/
theorem mouseStep_pitch_bounds (s : MouseState) (e : MouseEvent) (c : ℚ × ℚ)
    (h : (mouseStep s e).2 = some c) : -89 ≤ c.1 ∧ c.1 ≤ 89 := by
  by_cases hc : e.cursorNormal
  · simp [mouseStep, hc] at h
  · simp only [mouseStep, hc, Bool.false_eq_true, if_false, Option.some_inj] at h
    subst h
    dsimp only
    constructor
    · split_ifs <;> linarith
    · split_ifs <;> linarith

/-- `n` presses of `L` add `n` degrees to the light angle. -/
theorem lightRun_replicate_keyL : ∀ (n : ℕ) (a : ℚ),
    lightRun (List.replicate n LightKey.keyL) a = a + n
  | 0, a => by simp [lightRun]
  | n + 1, a => by
    have ih := lightRun_replicate_keyL n (a + 1)
    simp only [List.replicate_succ, lightRun, List.foldl_cons] at ih ⊢
    rw [show lightStep a LightKey.keyL = a + 1 from rfl, ih]
    push_cast
    ring

/-- `n` presses of `J` subtract `n` degrees from the light angle. -/
theorem lightRun_replicate_keyJ : ∀ (n : ℕ) (a : ℚ),
    lightRun (List.replicate n LightKey.keyJ) a = a - n
  | 0, a => by simp [lightRun]
  | n + 1, a => by
    have ih := lightRun_replicate_keyJ n (a - 1)
    simp only [List.replicate_succ, lightRun, List.foldl_cons] at ih ⊢
    rw [show lightStep a LightKey.keyJ = a - 1 from rfl, ih]
    push_cast
    ring

/-- Each display-mode key lands the state in one of the four combinations. -/
theorem modeStep_mem (s : DisplayMode) (k : ModeKey) :
    modeStep s k = ⟨FillMode.fill, 0⟩ ∨ modeStep s k = ⟨FillMode.line, 0⟩ ∨
    modeStep s k = ⟨FillMode.point, 0⟩ ∨ modeStep s k = ⟨FillMode.fill, 1⟩ := by
  cases k <;> simp [modeStep]

/-- The four-combination invariant is preserved by any key sequence. -/
theorem foldl_modeStep_mem : ∀ (evs : List ModeKey) (s : DisplayMode),
    (s = ⟨FillMode.fill, 0⟩ ∨ s = ⟨FillMode.line, 0⟩ ∨
     s = ⟨FillMode.point, 0⟩ ∨ s = ⟨FillMode.fill, 1⟩) →
    (evs.foldl modeStep s = ⟨FillMode.fill, 0⟩ ∨ evs.foldl modeStep s = ⟨FillMode.line, 0⟩ ∨
     evs.foldl modeStep s = ⟨FillMode.point, 0⟩ ∨ evs.foldl modeStep s = ⟨FillMode.fill, 1⟩)
  | [], s, hs => by simpa using hs
  | e :: es, s, _ => by
    rw [List.foldl_cons]
    exact foldl_modeStep_mem es (modeStep s e) (modeStep_mem s e)

/-! ## The claims -/

/-- Claim C1: within one `renderScene` frame, the `lightSpaceTrMatrix` uniform
is uploaded exactly twice — once on the depth-map shader and once on the basic
(color) shader — and both uploads carry the identical matrix, the single value
`computeLightSpaceTrMatrix()` returns for the frame's light angle. -/
theorem lightSpaceMatrix_consistent_per_frame (g : RenderGlobals) :
    uploadsNamed (renderScene g).2 Uniform.lightSpaceTrMatrix =
      [Effect.uploadMat4 ShaderId.depthMap Uniform.lightSpaceTrMatrix
         (computeLightSpaceTrMatrix g.lightAngle),
       Effect.uploadMat4 ShaderId.basic Uniform.lightSpaceTrMatrix
         (computeLightSpaceTrMatrix g.lightAngle)] := rfl

/-- Claim C2 (counterexample): at light angle `0` (state `frame0`) the value
uploaded to the color-pass uniform `lightDir` is the un-normalized rotated
base direction `(0,1,1)`, which differs from the normalized direction
`normalize(rotate(0) * (0,1,1))` the claim asserts is uploaded. -/
theorem lightDir_upload_not_normalized_cex :
    uploadsNamed (renderScene frame0).2 Uniform.lightDir =
      [Effect.uploadVec3 ShaderId.basic Uniform.lightDir (rotatedLightDir 0)] ∧
    rotatedLightDir 0 ≠ Vec3.normalize (rotatedLightDir 0) := by
  refine ⟨rfl, ?_⟩
  rw [rotatedLightDir_zero]
  intro h
  have hy := congrArg Vec3.y h
  simp [Vec3.normalize, Vec3.smul, Vec3.len, Vec3.dot] at hy

/-- Claim C2 (amended): for every light rotation angle, the color-pass upload
of `lightDir` and the direction used inside `computeLightSpaceTrMatrix` derive
from the identical rotated base vector `rotate(θ) * (0,1,1)`; the matrix
computation normalizes that vector, while the color pass uploads it
un-normalized (a parallel vector, `sqrt 2` times longer). -/
theorem lightDir_and_matrix_share_rotated_dir (g : RenderGlobals) :
    uploadsNamed (renderScene g).2 Uniform.lightDir =
      [Effect.uploadVec3 ShaderId.basic Uniform.lightDir (rotatedLightDir g.lightAngle)] ∧
    computeLightSpaceTrMatrix g.lightAngle =
      glmOrtho (-10) 10 (-10) 10 1 50 *
        glmLookAt (Vec3.smul 10 (Vec3.normalize (rotatedLightDir g.lightAngle)))
          ⟨0, 0, 0⟩ ⟨0, 1, 0⟩ :=
  ⟨rfl, rfl⟩

/-- Claim C3 (code bug): the last `model` upload of the frame (the light-marker
cube, on the light shader) is `lightCubeModel`, whose translation at light
angle `0` is `(0, 10, 10)` — the *un-normalized* direction times 10, at
distance `10 * sqrt 2` from the origin — whereas the virtual light-camera
position `lightPos` used by `computeLightSpaceTrMatrix` is the normalized
direction times 10 (its y-component is `10 / sqrt 2`); the two differ, though
the code's own comment says the cube sits at the same distance. -/
theorem lightCube_translation_mismatch :
    (uploadsNamed (renderScene frame0).2 Uniform.model).getLast? =
      some (Effect.uploadMat4 ShaderId.light Uniform.model (lightCubeModel 0)) ∧
    translationOf (lightCubeModel 0) = ⟨0, 10, 10⟩ ∧
    (lightPos 0).y = 10 / Real.sqrt 2 ∧
    translationOf (lightCubeModel 0) ≠ lightPos 0 := by
  have hT : translationOf (lightCubeModel 0) = ⟨0, 10, 10⟩ := by
    simp [translationOf, lightCubeModel, glmScale, glmTranslate, glmRotateY,
          radians, translationMat, scalingMat, Matrix.mul_apply, Fin.sum_univ_four,
          Matrix.cons_val_zero, Matrix.cons_val_one, Matrix.head_cons,
          Matrix.cons_val_two, Matrix.cons_val_three, Matrix.tail_cons]
  have hP : (lightPos 0).y = 10 / Real.sqrt 2 := by
    simp [lightPos, lightDirN, rotatedLightDir_zero, Vec3.normalize, Vec3.smul,
          Vec3.len, Vec3.dot]
    norm_num
    rw [div_eq_mul_inv]
  refine ⟨rfl, hT, hP, ?_⟩
  intro h
  have hy := congrArg Vec3.y h
  rw [hT, hP] at hy
  have hpos : 0 < Real.sqrt 2 := Real.sqrt_pos.mpr (by norm_num)
  have hne : Real.sqrt 2 ≠ 0 := ne_of_gt hpos
  have hy' : (10 : ℝ) = 10 / Real.sqrt 2 := hy
  field_simp at hy'

/-- Claim C4: over any sequence of cursor-movement events with arbitrary
offsets, every pitch value `mouseCallback` passes to `myCamera.rotate` lies in
`[-89, 89]` degrees. -/
theorem pitch_clamped_in_rotate_calls (events : List MouseEvent) :
    ∀ c ∈ (mouseRun initMouseState events).2, -89 ≤ c.1 ∧ c.1 ≤ 89 := by
  suffices h : ∀ s, ∀ c ∈ (mouseRun s events).2, -89 ≤ c.1 ∧ c.1 ≤ 89 from h _
  induction events with
  | nil => intro s c hc; simp [mouseRun] at hc
  | cons e es ih =>
    intro s c hc
    simp only [mouseRun, List.mem_append] at hc
    rcases hc with hc | hc
    · apply mouseStep_pitch_bounds s e c
      rcases hmem : (mouseStep s e).2 with _ | v
      · rw [hmem] at hc; simp at hc
      · rw [hmem] at hc; simp at hc; rw [hc]
    · exact ih (mouseStep s e).1 c hc

/-- Claim C4 witness: a concrete event sequence whose single emitted rotate
call has its pitch inside the clamp interval. -/
theorem pitch_clamped_in_rotate_calls_witness :
    -89 ≤ ((0 : ℚ), (-90 : ℚ)).1 ∧ ((0 : ℚ), (-90 : ℚ)).1 ≤ 89 :=
  pitch_clamped_in_rotate_calls [⟨512, 384, false⟩] (0, -90)
    (by norm_num [mouseRun, mouseStep, initMouseState])

/-- Claim C5: after a full `renderScene` frame the GL viewport equals the
window's current dimensions, even though the depth pass temporarily set it to
the 2048×2048 shadow-map resolution (an effect that does occur in the
trace). -/
theorem viewport_restored_after_frame (g : RenderGlobals) (s0 : GLState) :
    (applyEffects s0 (renderScene g).2).viewport = (0, 0, g.winWidth, g.winHeight) ∧
    Effect.setViewport 0 0 2048 2048 ∈ (renderScene g).2 := by
  constructor
  · rfl
  · simp [renderScene, drawObjects]

/-- Claim C6: 180 `L` (increment) events followed by 180 `J` (decrement)
events restore any starting light angle exactly, hence the rotated light
direction computed from the resulting angle equals the original one. -/
theorem light_angle_roundtrip_180 (a : ℚ) :
    lightRun (List.replicate 180 LightKey.keyL ++ List.replicate 180 LightKey.keyJ) a = a ∧
    rotatedLightDir
        ((lightRun (List.replicate 180 LightKey.keyL ++ List.replicate 180 LightKey.keyJ) a : ℚ) : ℝ) =
      rotatedLightDir (a : ℝ) := by
  have h : lightRun (List.replicate 180 LightKey.keyL ++ List.replicate 180 LightKey.keyJ) a = a := by
    unfold lightRun
    rw [List.foldl_append]
    have h1 := lightRun_replicate_keyL 180 a
    have h2 := lightRun_replicate_keyJ 180 (a + ((180 : ℕ) : ℚ))
    unfold lightRun at h1 h2
    rw [h1, h2]
    norm_num
  exact ⟨h, by rw [h]⟩

/-- Claim C7: after any sequence of display-mode key events the state is one
of exactly four combinations — (FILL, smooth), (LINE, smooth), (POINT,
smooth), (FILL, flat) — flat shading never co-occurs with LINE or POINT, and
key 1 after key 2 returns the state to the default from anywhere. -/
theorem display_mode_four_states (evs : List ModeKey) :
    (modeRun evs = ⟨FillMode.fill, 0⟩ ∨ modeRun evs = ⟨FillMode.line, 0⟩ ∨
     modeRun evs = ⟨FillMode.point, 0⟩ ∨ modeRun evs = ⟨FillMode.fill, 1⟩) ∧
    ((modeRun evs).isFlat = 1 → (modeRun evs).fillMode = FillMode.fill) ∧
    (∀ s : DisplayMode, modeStep (modeStep s ModeKey.k2) ModeKey.k1 = initDisplayMode) := by
  have hmem : modeRun evs = ⟨FillMode.fill, 0⟩ ∨ modeRun evs = ⟨FillMode.line, 0⟩ ∨
      modeRun evs = ⟨FillMode.point, 0⟩ ∨ modeRun evs = ⟨FillMode.fill, 1⟩ :=
    foldl_modeStep_mem evs initDisplayMode (Or.inl rfl)
  refine ⟨hmem, ?_, fun s => rfl⟩
  rcases hmem with h | h | h | h <;> rw [h] <;> intro hf <;> first | rfl | (exfalso; simp at hf)

/-- Claim C8: with `depthPass = true`, `drawObjects` performs no
normal-matrix upload and leaves the global `normalMatrix` unchanged; with
`depthPass = false`, it recomputes and uploads
`mat3(inverseTranspose(view * model))` for each of the two objects. -/
theorem normalMatrix_skipped_in_depth_pass (sh : ShaderId) (g : RenderGlobals) :
    uploadsNamed (drawObjects sh true g).2 Uniform.normalMatrix = [] ∧
    (drawObjects sh true g).1.normalMatrix = g.normalMatrix ∧
    uploadsNamed (drawObjects sh false g).2 Uniform.normalMatrix =
      [Effect.uploadMat3 sh Uniform.normalMatrix
         (mat3ofMat4 (inverseTranspose (g.view * nanosuitModel g.angle))),
       Effect.uploadMat3 sh Uniform.normalMatrix
         (mat3ofMat4 (inverseTranspose (g.view * groundModel)))] :=
  ⟨rfl, rfl, rfl⟩

/-- Claim C9: if `initOpenGLWindow()` throws, `main` only reports the error
and returns `EXIT_FAILURE` (no initialization or loop action runs); if it
succeeds, `main` returns `EXIT_SUCCESS`, never reports a startup error, and
finishes with `cleanup()` after the loop. -/
theorem main_startup_error_handling (frames : ℕ) :
    ((mainRun true frames).1 = EXIT_FAILURE ∧
     (mainRun true frames).2 = [MainAct.reportError]) ∧
    ((mainRun false frames).1 = EXIT_SUCCESS ∧
     MainAct.reportError ∉ (mainRun false frames).2 ∧
     (mainRun false frames).2.getLast? = some MainAct.doCleanup) := by
  refine ⟨⟨rfl, rfl⟩, rfl, ?_, ?_⟩
  · simp [mainRun, List.mem_append, List.mem_replicate]
  · simp only [mainRun, if_false, Bool.false_eq_true]
    exact List.getLast?_concat _

/-- Claim C10: `keyboardCallback` leaves the `pressedKeys` array entirely
unchanged for any key outside `[0, 1024)`; for a key inside the range it
changes no entry other than `pressedKeys[key]`, setting that entry to `true`
on press and `false` on release. -/
theorem pressedKeys_in_bounds_update (key : ℤ) (action : KeyAction) (pressed : KeyArray) :
    (¬ (0 ≤ key ∧ key < 1024) → (keyboardCallback key action pressed).1 = pressed) ∧
    (∀ i : Fin 1024, (i.val : ℤ) ≠ key → (keyboardCallback key action pressed).1 i = pressed i) ∧
    ((0 ≤ key ∧ key < 1024) → action = KeyAction.press →
      ∀ i : Fin 1024, (i.val : ℤ) = key → (keyboardCallback key action pressed).1 i = true) ∧
    ((0 ≤ key ∧ key < 1024) → action = KeyAction.release →
      ∀ i : Fin 1024, (i.val : ℤ) = key → (keyboardCallback key action pressed).1 i = false) := by
  refine ⟨?_, ?_, ?_, ?_⟩
  · intro h
    simp only [keyboardCallback]
    rw [dif_neg h]
  · intro i hi
    simp only [keyboardCallback]
    by_cases h : 0 ≤ key ∧ key < 1024
    · rw [dif_pos h]
      have hne : i ≠ (⟨key.toNat, by omega⟩ : Fin 1024) := by
        intro he
        apply hi
        rw [he]
        simp
        omega
      cases action with
      | press => simp [Function.update_apply, hne]
      | release => simp [Function.update_apply, hne]
      | rep => rfl
    · rw [dif_neg h]
  · rintro h rfl i hi
    simp only [keyboardCallback]
    rw [dif_pos h]
    have he : i = (⟨key.toNat, by omega⟩ : Fin 1024) := by
      apply Fin.ext
      simp
      omega
    simp [Function.update_apply, he]
  · rintro h rfl i hi
    simp only [keyboardCallback]
    rw [dif_pos h]
    have he : i = (⟨key.toNat, by omega⟩ : Fin 1024) := by
      apply Fin.ext
      simp
      omega
    simp [Function.update_apply, he]

/-- Claim C10 witness: an out-of-range key code (2000) leaves the whole
`pressedKeys` array unchanged. -/
theorem pressedKeys_in_bounds_update_witness :
    (keyboardCallback 2000 KeyAction.press (fun _ => false)).1 = (fun _ => false) :=
  (pressedKeys_in_bounds_update 2000 KeyAction.press (fun _ => false)).1 (by decide)
